import Mathlib

/-!
Verification of the qail benchmark harness (`fifty_million_libpq.c`, present in
two near-duplicate copies under `pg/examples/` and `qail-bench/benchmarks/`)
and of the PHP binding (`php/ext/qail/qail.c`).

The harness drives PostgreSQL pipelining: per batch it sends `QUERIES_PER_BATCH`
prepared-statement executions, issues one sync, then drains replies.  We embed
the driver as pure functions over an explicit per-batch script: which sends
succeed, and the reply stream the connection yields to successive
`PQgetResult` calls (`some s` = a non-NULL result with status `s`,
`none` = a NULL return; a read on an exhausted stream also returns NULL,
matching an idle pipeline).
-/

/-- Result status of one `PQgetResult` read, as the harness distinguishes them:
`PGRES_TUPLES_OK` (counted as success), any command/err status, and the
`PGRES_PIPELINE_SYNC` result produced by `PQpipelineSync`. -/
inductive PGStatus where
  | tuplesOk
  | commandOk
  | errorStatus
  | pipelineSync
  deriving DecidableEq, Repr

/-- Inputs determining one batch iteration of the harness loop:
per-request send success (`PQsendQueryPrepared` returning nonzero), and the
connection's reply stream for the batch's drain phase. -/
structure BatchScript where
  sendOk : List Bool
  replies : List (Option PGStatus)
  deriving DecidableEq, Repr

/-- Number of requests actually sent: the send loop breaks at the first
failing `PQsendQueryPrepared`, so later entries are not attempted. -/
def sentCount : List Bool → Nat
  | [] => 0
  | ok :: rest => if ok then sentCount rest + 1 else 0

/-- The drain loop of the harness (`for i in 0..B { res = PQgetResult; if
NULL break; count TUPLES_OK; PQgetResult (terminator) }`), over a reply
stream.  Returns (successes gained, number of `PQgetResult` calls performed,
remaining stream).  Reading an empty stream returns NULL and does not
consume anything. -/
def drainLoop : Nat → List (Option PGStatus) → Nat × Nat × List (Option PGStatus)
  | 0, stream => (0, 0, stream)
  | _ + 1, [] => (0, 1, [])
  | _ + 1, none :: rest => (0, 1, rest)
  | fuel + 1, some s :: rest =>
      let t := drainLoop fuel rest.tail
      ((if s = PGStatus.tuplesOk then 1 else 0) + t.1, 2 + t.2.1, t.2.2)

/-- One batch iteration after the sends and the sync: the drain loop with
fuel `B = QUERIES_PER_BATCH`, followed by the single extra `PQgetResult`
that consumes the pipeline-sync result.  Returns (successes, total reads). -/
def runBatch (B : Nat) (sc : BatchScript) : Nat × Nat :=
  let t := drainLoop B sc.replies
  (t.1, t.2.1 + 1)

/-- The whole batch loop: accumulates the `successful` counter and records
the per-batch read counts.  The loop body has no abort path: every scripted
batch executes. -/
def runAll (B : Nat) : List BatchScript → Nat × List Nat
  | [] => (0, [])
  | sc :: rest =>
      let r := runBatch B sc
      let t := runAll B rest
      (r.1 + t.1, r.2 :: t.2)

/-- Reply stream a well-behaved backend produces for the sent requests of one
batch: per request its result then the NULL terminator, then the
pipeline-sync result. -/
def pairs : List PGStatus → List (Option PGStatus)
  | [] => []
  | s :: rest => some s :: none :: pairs rest

/-- Honest per-batch replies: paired request results followed by the sync
result. -/
def pairedReplies (ss : List PGStatus) : List (Option PGStatus) :=
  pairs ss ++ [some PGStatus.pipelineSync]

/-- Number of `PGRES_TUPLES_OK` statuses in a list. -/
def countTuples : List PGStatus → Nat
  | [] => 0
  | s :: rest => (if s = PGStatus.tuplesOk then 1 else 0) + countTuples rest

/-- A batch script with every send succeeding and every drained result
carrying tuple data. -/
def errorFreeScript (B : Nat) : BatchScript :=
  { sendOk := List.replicate B true
    replies := pairedReplies (List.replicate B PGStatus.tuplesOk) }

lemma sentCount_replicate_true (B : Nat) : sentCount (List.replicate B true) = B := by
  induction B with
  | zero => rfl
  | succ n ih => simp [List.replicate, sentCount, ih]

lemma countTuples_replicate (B : Nat) :
    countTuples (List.replicate B PGStatus.tuplesOk) = B := by
  induction B with
  | zero => rfl
  | succ n ih => simp [List.replicate, countTuples, ih]; omega

lemma drainLoop_pairs (ss : List PGStatus) (rest : List (Option PGStatus)) (k : Nat) :
    drainLoop (ss.length + k) (pairs ss ++ rest) =
      (countTuples ss + (drainLoop k rest).1,
       2 * ss.length + (drainLoop k rest).2.1,
       (drainLoop k rest).2.2) := by
  induction ss with
  | nil => simp [pairs, countTuples]
  | cons s ss' ih =>
      have hlen : (s :: ss').length + k = (ss'.length + k) + 1 := by
        simp [List.length_cons]; omega
      rw [hlen]
      simp only [pairs, List.cons_append, drainLoop, List.append_eq, List.tail_cons]
      rw [ih]
      simp [countTuples, List.length_cons]
      constructor
      · omega
      · omega

lemma runBatch_full (B : Nat) (ss : List PGStatus) (h : ss.length = B) :
    runBatch B { sendOk := List.replicate B true, replies := pairedReplies ss } =
      (countTuples ss, 2 * B + 1) := by
  subst h
  have := drainLoop_pairs ss [some PGStatus.pipelineSync] 0
  simp only [Nat.add_zero] at this
  simp [runBatch, pairedReplies, this, drainLoop]

lemma runAll_errorFree (B : Nat) (scripts : List BatchScript)
    (hfree : ∀ sc ∈ scripts, sc = errorFreeScript B) :
    (runAll B scripts).1 = scripts.length * B := by
  induction scripts with
  | nil => simp [runAll]
  | cons sc rest ih =>
      have hsc := hfree sc (by simp)
      have hrest : ∀ s ∈ rest, s = errorFreeScript B := fun s hs => hfree s (by simp [hs])
      have hbatch : runBatch B sc = (B, 2 * B + 1) := by
        rw [hsc]
        have h := runBatch_full B (List.replicate B PGStatus.tuplesOk) (by simp)
        simpa [errorFreeScript, countTuples_replicate] using h
      simp [runAll, hbatch, ih hrest, List.length_cons]
      ring

lemma runAll_length (B : Nat) (scripts : List BatchScript) :
    (runAll B scripts).2.length = scripts.length := by
  induction scripts with
  | nil => rfl
  | cons sc rest ih => simp [runAll, ih]

/-- C1: an error-free run (every send succeeds, every drained per-request
result carries tuple data) over `n = num_batches` batches of size `B` ends
with the `successful` counter equal to the configured total `T = n * B`
(`TOTAL_QUERIES`). -/
theorem errorFree_run_successful_eq_total (B n T : Nat) (scripts : List BatchScript)
    (hlen : scripts.length = n) (hT : T = n * B)
    (hfree : ∀ sc ∈ scripts, sc = errorFreeScript B) :
    (runAll B scripts).1 = T := by
  rw [hT, ← hlen]
  exact runAll_errorFree B scripts hfree

/-- Witness for C1 at `B = 2`, two batches, `T = 4`. -/
theorem errorFree_run_successful_eq_total_witness :
    (runAll 2 [errorFreeScript 2, errorFreeScript 2]).1 = 4 :=
  errorFree_run_successful_eq_total 2 2 4 [errorFreeScript 2, errorFreeScript 2]
    (by decide) (by decide) (by decide)

/-- C3: in a batch whose `B` requests are all sent successfully (so
`sentCount = B`) and drained against the backend's paired replies, the
drain phase performs exactly `2*B + 1` reads: one data/command result and
one trailing terminator per request, plus one final read for the sync
result. -/
theorem full_batch_drain_reads (B : Nat) (ss : List PGStatus) (h : ss.length = B) :
    sentCount (List.replicate B true) = B ∧
    (runBatch B { sendOk := List.replicate B true, replies := pairedReplies ss }).2 =
      2 * B + 1 :=
  ⟨sentCount_replicate_true B, by rw [runBatch_full B ss h]⟩

/-- Witness for C3 at `B = 3` with mixed result statuses. -/
theorem full_batch_drain_reads_witness :
    sentCount (List.replicate 3 true) = 3 ∧
    (runBatch 3 { sendOk := List.replicate 3 true,
                  replies := pairedReplies
                    [PGStatus.tuplesOk, PGStatus.commandOk, PGStatus.tuplesOk] }).2 =
      2 * 3 + 1 :=
  full_batch_drain_reads 3 [PGStatus.tuplesOk, PGStatus.commandOk, PGStatus.tuplesOk]
    (by decide)

/-- C5: with the send failing at request index 6 of a 10-request batch
(requests 0..5 sent), the send loop stops for that batch (`sentCount = 6`),
draining the honest replies for the 6 sent requests yields 6 successes, and
the run proceeds to the next (fully successful) batch instead of aborting:
the final counter is `6 + 10 = 16` and both batches record read counts. -/
theorem send_failure_truncates_batch :
    sentCount [true, true, true, true, true, true, false, true, true, true] = 6 ∧
    runAll 10
      [{ sendOk := [true, true, true, true, true, true, false, true, true, true],
         replies := pairedReplies (List.replicate 6 PGStatus.tuplesOk) },
       errorFreeScript 10] =
      (16, [16, 21]) := by decide

/-- C2 counterexample: a batch whose two sends both succeed but whose reply
stream ends early (one result pair, then NULL) performs only 4 reads, short
of the expected `2*sentCount + 1 = 5`; yet the run is not terminated — the
next batch still executes (the read-count trace has a second entry) and its
successes are still counted.  No fatal error of any kind is surfaced: the
driver's result type has no error channel at all. -/
theorem drain_shortfall_not_fatal_cex :
    2 * sentCount [true, true] + 1 = 5 ∧
    runAll 2 [{ sendOk := [true, true], replies := [some PGStatus.tuplesOk, none] },
              errorFreeScript 2] =
      (3, [4, 5]) := by decide

/-- C2 amended: a read-count shortfall is silently tolerated.  The drain
loop simply breaks at the first NULL read and the batch loop always
executes every scripted batch — the per-batch read-count trace has exactly
one entry per batch regardless of any shortfall, and the driver surfaces no
error. -/
theorem drain_shortfall_silently_tolerated (B : Nat) (scripts : List BatchScript) :
    (runAll B scripts).2.length = scripts.length :=
  runAll_length B scripts

/-- Which half of `successful % 1000000 == 0 || (now - last_report) >= 5000`
fired, mirroring the short-circuit evaluation order: the counter test is
evaluated first. -/
inductive Trigger where
  | counter
  | timer
  deriving DecidableEq, Repr

/-- The per-batch progress-report decision of the harness, with times in
milliseconds (modelled as rationals). -/
def progressTrigger (successful : Nat) (nowMs lastReportMs : ℚ) : Option Trigger :=
  if successful % 1000000 = 0 then some Trigger.counter
  else if 5000 ≤ nowMs - lastReportMs then some Trigger.timer
  else none

/-- Whether a progress report is printed at a batch boundary. -/
def progressFires (successful : Nat) (nowMs lastReportMs : ℚ) : Bool :=
  (progressTrigger successful nowMs lastReportMs).isSome

/-- The report side of the batch loop: one (gain, now) entry per batch —
the batch's contribution to `successful` and the wall-clock reading taken
after its drain.  `last_report` is updated only when a report fires, exactly
as in the source. -/
def reportLoop : List (Nat × ℚ) → Nat → ℚ → List Bool
  | [], _, _ => []
  | (gain, now) :: rest, s, last =>
      let fire := progressFires (s + gain) now last
      fire :: reportLoop rest (s + gain) (if fire then now else last)

lemma progressFires_iff (s : Nat) (now last : ℚ) :
    progressFires s now last = true ↔ (s % 1000000 = 0 ∨ 5000 ≤ now - last) := by
  by_cases h1 : s % 1000000 = 0 <;>
    by_cases h2 : (5000 : ℚ) ≤ now - last <;>
      simp [progressFires, progressTrigger, h1, h2]

/-- C6: the progress decision is evaluated once per batch boundary (one
decision per batch, with `last_report` threaded), fires exactly when the
counter is a multiple of one million or at least 5000 ms elapsed since the
last report, the counter test is evaluated first, and a batch that jumps
past a million boundary without landing exactly on a multiple does not fire
the counter trigger (and fires nothing if the timer is also quiet). -/
theorem progress_report_batch_condition :
    (∀ batches s last, (reportLoop batches s last).length = batches.length) ∧
    (∀ gain now rest s last,
        reportLoop ((gain, now) :: rest) s last =
          progressFires (s + gain) now last ::
            reportLoop rest (s + gain)
              (if progressFires (s + gain) now last then now else last)) ∧
    (∀ s now last, progressFires s now last = true ↔
        (s % 1000000 = 0 ∨ 5000 ≤ now - last)) ∧
    (∀ s now last, s % 1000000 = 0 →
        progressTrigger s now last = some Trigger.counter) ∧
    (∀ s gain k now last, s < 1000000 * k → 1000000 * k < s + gain →
        (s + gain) % 1000000 ≠ 0 → now - last < 5000 →
        progressFires (s + gain) now last = false) := by
  refine ⟨?_, ?_, progressFires_iff, ?_, ?_⟩
  · intro batches
    induction batches with
    | nil => intro s last; rfl
    | cons b rest ih =>
        intro s last
        obtain ⟨gain, now⟩ := b
        simp [reportLoop, ih]
  · intro gain now rest s last
    rfl
  · intro s now last h
    simp [progressTrigger, h]
  · intro s gain k now last _ _ h3 h4
    simp [progressFires, progressTrigger, h3, not_le.mpr h4]

/-- Witness for C6: two batches produce two decisions; `successful = 10^6`
satisfies the fire condition via the counter disjunct; the counter trigger
wins when the counter lands on a multiple; a batch jumping from 900000 to
1500000 (crossing 10^6) with a quiet timer fires no report. -/
theorem progress_report_batch_condition_witness :
    (reportLoop [(10000, 100), (10000, 200)] 0 0).length = 2 ∧
    (progressFires 1000000 0 0 = true ↔
      ((1000000 : Nat) % 1000000 = 0 ∨ (5000 : ℚ) ≤ 0 - 0)) ∧
    progressTrigger 2000000 300 0 = some Trigger.counter ∧
    progressFires (900000 + 600000) 100 0 = false := by
  have h := progress_report_batch_condition
  exact ⟨h.1 [(10000, 100), (10000, 200)] 0 0,
         h.2.2.1 1000000 0 0,
         h.2.2.2.1 2000000 300 0 (by norm_num),
         h.2.2.2.2 900000 600000 1 100 0 (by norm_num) (by norm_num)
           (by norm_num) (by norm_num)⟩

/-- The final summary block of the harness, with times and rates over ℚ:
`qps = TOTAL_QUERIES / elapsed`, `per_query_ns = elapsed * 1e9 /
TOTAL_QUERIES`, and the `successful` counter printed as-is. -/
structure FinalReport where
  elapsedS : ℚ
  qps : ℚ
  perQueryNs : ℚ
  successfulCount : Nat
  deriving Repr

/-- The computation at the end of `main`. -/
def finalReport (totalQueries successful : Nat) (elapsedS : ℚ) : FinalReport :=
  { elapsedS := elapsedS
    qps := (totalQueries : ℚ) / elapsedS
    perQueryNs := elapsedS * 1000000000 / (totalQueries : ℚ)
    successfulCount := successful }

/-- C4: the final throughput divides the configured total (not the observed
successful count) by elapsed seconds, the per-query nanoseconds figure is
likewise derived from the configured total, and the successful count is
reported separately; whenever the two counts differ (and time passed), the
printed throughput provably differs from `successful / elapsed`. -/
theorem final_summary_uses_configured_total (total succ : Nat) (elapsed : ℚ)
    (hne : (succ : ℚ) ≠ (total : ℚ)) (hpos : 0 < elapsed) :
    (finalReport total succ elapsed).qps = (total : ℚ) / elapsed ∧
    (finalReport total succ elapsed).perQueryNs =
      elapsed * 1000000000 / (total : ℚ) ∧
    (finalReport total succ elapsed).successfulCount = succ ∧
    (finalReport total succ elapsed).qps ≠ (succ : ℚ) / elapsed := by
  refine ⟨rfl, rfl, rfl, ?_⟩
  show (total : ℚ) / elapsed ≠ (succ : ℚ) / elapsed
  intro h
  rw [div_eq_div_iff (ne_of_gt hpos) (ne_of_gt hpos)] at h
  exact hne (mul_right_cancel₀ (ne_of_gt hpos) h).symm

/-- Witness for C4 at `total = 10`, `successful = 9`, `elapsed = 2`. -/
theorem final_summary_uses_configured_total_witness :
    ((9 : Nat) : ℚ) ≠ ((10 : Nat) : ℚ) ∧ (0 : ℚ) < 2 ∧
    (finalReport 10 9 2).qps ≠ ((9 : Nat) : ℚ) / 2 := by
  have h := final_summary_uses_configured_total 10 9 2 (by norm_num) (by norm_num)
  exact ⟨by norm_num, by norm_num, h.2.2.2⟩

/-- The top-level statements of `main`, in source order (identical in both
copies of the harness): banner, connect, prepare, `start = get_time_ms()`,
`PQenterPipelineMode`, the parameter-buffer build loop, the batch loop,
`PQexitPipelineMode`, the final `get_time_ms()` for `elapsed`, and the
summary print. -/
inductive MainStep where
  | printBanner
  | connect
  | prepare
  | takeStart
  | enterPipeline
  | buildParams
  | batchLoop
  | exitPipeline
  | takeEnd
  | printSummary
  deriving DecidableEq, Repr

/-- Program order of `main`. -/
def mainOrder : List MainStep :=
  [MainStep.printBanner, MainStep.connect, MainStep.prepare, MainStep.takeStart,
   MainStep.enterPipeline, MainStep.buildParams, MainStep.batchLoop,
   MainStep.exitPipeline, MainStep.takeEnd, MainStep.printSummary]

/-- The parameter buffer built by the pre-build loop: entry `i` holds the
decimal rendering of `(i % 10) + 1`. -/
def buildParams (B : Nat) : List String :=
  (List.range B).map (fun i => toString (i % 10 + 1))

/-- State threaded through the batch loop: the parameter buffer and the
`successful` counter. -/
structure DriverState where
  params : List String
  successful : Nat
  deriving DecidableEq, Repr

/-- One batch-loop iteration over the driver state: the sends read the
parameter buffer, the drain updates `successful`; the buffer itself is not
written. -/
def batchStep (B : Nat) (sc : BatchScript) (st : DriverState) : DriverState :=
  { params := st.params, successful := st.successful + (runBatch B sc).1 }

/-- The batch loop over the driver state. -/
def runBatches (B : Nat) : List BatchScript → DriverState → DriverState
  | [], st => st
  | sc :: rest, st => runBatches B rest (batchStep B sc st)

lemma runBatches_params (B : Nat) (scripts : List BatchScript) (st : DriverState) :
    (runBatches B scripts st).params = st.params := by
  induction scripts generalizing st with
  | nil => rfl
  | cons sc rest ih => simp [runBatches, batchStep, ih]

/-- C7 counterexample: in the source, `start = get_time_ms()` is executed
before the parameter-buffer build loop, so the buffer is NOT constructed
before the start timestamp is taken — it is built inside the timed region. -/
theorem params_built_after_start_cex :
    ¬ mainOrder.indexOf MainStep.buildParams < mainOrder.indexOf MainStep.takeStart ∧
    mainOrder.indexOf MainStep.takeStart < mainOrder.indexOf MainStep.buildParams := by
  decide

/-- C7 amended: the parameter buffer is built exactly once, after the start
timestamp is taken (inside the timed region) but before any batch runs;
entry `i` holds the decimal string of `(i % 10) + 1`; and the batch loop
never writes the buffer — every batch reuses it unchanged. -/
theorem params_buffer_once_and_immutable (B : Nat) (scripts : List BatchScript)
    (st : DriverState) (i : Nat) (hi : i < B) :
    mainOrder.count MainStep.buildParams = 1 ∧
    mainOrder.indexOf MainStep.takeStart < mainOrder.indexOf MainStep.buildParams ∧
    mainOrder.indexOf MainStep.buildParams < mainOrder.indexOf MainStep.batchLoop ∧
    (buildParams B)[i]? = some (toString (i % 10 + 1)) ∧
    (runBatches B scripts st).params = st.params := by
  refine ⟨by decide, by decide, by decide, ?_, runBatches_params B scripts st⟩
  simp [buildParams, List.getElem?_map, List.getElem?_range, hi]

/-- Witness for C7's amended claim at `B = 3`, `i = 1`, one batch. -/
theorem params_buffer_once_and_immutable_witness :
    (1 : Nat) < 3 ∧
    (buildParams 3)[1]? = some (toString (1 % 10 + 1)) ∧
    (runBatches 3 [errorFreeScript 3] ⟨buildParams 3, 0⟩).params = buildParams 3 := by
  have h := params_buffer_once_and_immutable 3 [errorFreeScript 3]
    ⟨buildParams 3, 0⟩ 1 (by decide)
  exact ⟨by decide, h.2.2.2.1, h.2.2.2.2⟩

/-- Function `get_env_or` from the `qail-bench` harness: the environment
variable's value when set, the default otherwise.  The environment is modelled as a
partial map from variable names to values. -/
def get_env_or (env : String → Option String) (key default_val : String) : String :=
  match env key with
  | some v => v
  | none => default_val

/-- The conninfo string the `qail-bench` harness builds from the
environment (`snprintf "host=%s port=%s user=%s dbname=%s"` over the four
`get_env_or` lookups). -/
def benchConninfo (env : String → Option String) : String :=
  "host=" ++ get_env_or env "PG_HOST" "127.0.0.1" ++
  " port=" ++ get_env_or env "PG_PORT" "5432" ++
  " user=" ++ get_env_or env "PG_USER" "postgres" ++
  " dbname=" ++ get_env_or env "PG_DATABASE" "postgres"

/-- The conninfo string of the `pg/examples` harness: a hard-coded literal
passed to `PQconnectdb`, independent of the environment. -/
def examplesConninfo : String :=
  "host=127.0.0.1 port=5432 user=orion dbname=swb_staging_local"

/-- C9 counterexample: the `pg/examples` copy of the harness does not take
its connection parameters from the environment at all — its conninfo is a
constant with `user=orion dbname=swb_staging_local`, which differs from the
environment-with-defaults conninfo (`user=postgres dbname=postgres`) that
the claim asserts for every run. -/
theorem examples_conninfo_hardcoded_cex :
    examplesConninfo = "host=127.0.0.1 port=5432 user=orion dbname=swb_staging_local" ∧
    benchConninfo (fun _ => none) =
      "host=127.0.0.1 port=5432 user=postgres dbname=postgres" ∧
    examplesConninfo ≠ benchConninfo (fun _ => none) := by
  refine ⟨rfl, rfl, ?_⟩
  decide

/-- C9 amended: only the `qail-bench` harness reads connection parameters
from the environment, with defaults host `127.0.0.1`, port `5432`, user
`postgres`, database `postgres` when the variables are unset (and set
variables taking precedence); the `pg/examples` harness hardcodes
`host=127.0.0.1 port=5432 user=orion dbname=swb_staging_local`. -/
theorem bench_conninfo_env_defaults (env : String → Option String)
    (hh : env "PG_HOST" = none) (hp : env "PG_PORT" = none)
    (hu : env "PG_USER" = none) (hd : env "PG_DATABASE" = none) :
    benchConninfo env = "host=127.0.0.1 port=5432 user=postgres dbname=postgres" ∧
    (∀ v, get_env_or env "PG_HOST" v = v) ∧
    (∀ env2 : String → Option String, ∀ v, env2 "PG_USER" = some v →
        get_env_or env2 "PG_USER" "postgres" = v) ∧
    examplesConninfo = "host=127.0.0.1 port=5432 user=orion dbname=swb_staging_local" := by
  refine ⟨?_, ?_, ?_, rfl⟩
  · simp [benchConninfo, get_env_or, hh, hp, hu, hd]
  · intro v; simp [get_env_or, hh]
  · intro env2 v hv; simp [get_env_or, hv]

/-- Witness for C9's amended claim: the empty environment. -/
theorem bench_conninfo_env_defaults_witness :
    benchConninfo (fun _ => none) =
      "host=127.0.0.1 port=5432 user=postgres dbname=postgres" ∧
    get_env_or (fun _ => none) "PG_HOST" "x" = "x" := by
  have h := bench_conninfo_env_defaults (fun _ => none) rfl rfl rfl rfl
  exact ⟨h.1, h.2.1 "x"⟩

/-- Function `qail_encode_select` at the PHP boundary.  The Rust encoder is an
oracle returning `none` for a NULL pointer or `some bs` for a buffer whose
`out_len` is `bs.length`; the PHP return value is a byte string.  NULL and
zero-length buffers both map to the empty PHP string. -/
def phpEncodeSelect (table columns : String) (limit : Int)
    (enc : String → String → Int → Option (List Nat)) : List Nat :=
  match enc table columns limit with
  | none => []
  | some bs => if bs.length = 0 then [] else bs

/-- Function `qail_encode_batch` at the PHP boundary.  The boolean records whether
the Rust encoder was invoked: an empty limits array returns the empty
string before the encoder is ever called. -/
def phpEncodeBatch (table columns : String) (limits : List Int)
    (enc : String → String → List Int → Option (List Nat)) : List Nat × Bool :=
  if limits.length = 0 then ([], false)
  else
    match enc table columns limits with
    | none => ([], true)
    | some bs => (if bs.length = 0 then [] else bs, true)

/-- C10: `qail_encode_select` and `qail_encode_batch` return the empty PHP
string both when the encoder signals an error (NULL) and when it returns a
zero-length buffer; `qail_encode_batch` returns the empty string for an
empty limits array without calling the encoder; consequently an erroring
encoder and a genuinely-empty encoder are indistinguishable to the caller. -/
theorem php_encode_empty_ambiguity (table columns : String) (limit : Int)
    (limits : List Int)
    (encS : String → String → Int → Option (List Nat))
    (encB : String → String → List Int → Option (List Nat)) :
    (encS table columns limit = none →
        phpEncodeSelect table columns limit encS = []) ∧
    (encS table columns limit = some [] →
        phpEncodeSelect table columns limit encS = []) ∧
    (limits = [] → phpEncodeBatch table columns limits encB = ([], false)) ∧
    (limits ≠ [] → encB table columns limits = none →
        phpEncodeBatch table columns limits encB = ([], true)) ∧
    (limits ≠ [] → encB table columns limits = some [] →
        phpEncodeBatch table columns limits encB = ([], true)) ∧
    (∀ encS2 : String → String → Int → Option (List Nat),
        encS table columns limit = none → encS2 table columns limit = some [] →
        phpEncodeSelect table columns limit encS =
          phpEncodeSelect table columns limit encS2) := by
  refine ⟨?_, ?_, ?_, ?_, ?_, ?_⟩
  · intro h; simp [phpEncodeSelect, h]
  · intro h; simp [phpEncodeSelect, h]
  · intro h; simp [phpEncodeBatch, h]
  · intro hne h
    have hlen : limits.length ≠ 0 := by simpa using hne
    simp [phpEncodeBatch, hlen, h]
  · intro hne h
    have hlen : limits.length ≠ 0 := by simpa using hne
    simp [phpEncodeBatch, hlen, h]
  · intro encS2 h1 h2
    simp [phpEncodeSelect, h1, h2]

/-- Witness for C10: a concrete erroring encoder and a concrete
empty-result encoder produce identical (empty) outputs, and the empty
limits array short-circuits without invoking the encoder. -/
theorem php_encode_empty_ambiguity_witness :
    phpEncodeSelect "t" "c" 1 (fun _ _ _ => none) = [] ∧
    phpEncodeBatch "t" "c" [] (fun _ _ _ => some [1, 2]) = ([], false) ∧
    phpEncodeBatch "t" "c" [7] (fun _ _ _ => none) = ([], true) ∧
    phpEncodeSelect "t" "c" 1 (fun _ _ _ => none) =
      phpEncodeSelect "t" "c" 1 (fun _ _ _ => some []) := by
  have h := php_encode_empty_ambiguity "t" "c" 1 [7]
    (fun _ _ _ => none) (fun _ _ _ => none)
  have h2 := php_encode_empty_ambiguity "t" "c" 1 ([] : List Int)
    (fun _ _ _ => none) (fun _ _ _ => some [1, 2])
  exact ⟨h.1 rfl, h2.2.2.1 rfl, h.2.2.2.1 (by decide) rfl,
         h.2.2.2.2.2 (fun _ _ _ => some []) rfl rfl⟩
